import Mathlib

/-!
# LiquidCrystal_C : a shallow embedding of the HD44780 GPIO driver

The driver (`components/liquidcrystal/liquid_crystal.c`) talks to the display through three
capabilities of the platform: `gpio_set_direction`, `gpio_set_level` and
`vTaskDelay(pdMS_TO_TICKS(ms))`.  The embedding threads an explicit `World` through every
function: the descriptor the `lcd` pointer refers to, the answer the GPIO driver gives for each
pin, and the list of capability calls made so far (the trace).

Machine integers are natural numbers.  Every `uint8_t` object holds a value below 256; where the
source converts an `int` expression to `uint8_t` the embedding reduces it modulo 256.
-/

namespace LiquidCrystal

/-! ## Platform types -/

/-- Error codes are the `int` typedef `esp_err_t` of the platform. -/
abbrev esp_err_t := Int

/-- Success code of the platform (`esp_err.h`). -/
def ESP_OK : esp_err_t := 0

/-- Invalid-argument code of the platform (`esp_err.h`). -/
def ESP_ERR_INVALID_ARG : esp_err_t := 0x102

/-- Pin modes of the platform GPIO driver; the driver under study only ever asks for output. -/
inductive gpio_mode_t where
  | GPIO_MODE_INPUT
  | GPIO_MODE_OUTPUT
deriving DecidableEq, Repr

/-- One call of a platform capability, as a recording fake would log it. -/
inductive Event where
  /-- Records `gpio_set_direction(pin, mode)`. -/
  | direction (pin : Nat) (mode : gpio_mode_t)
  /-- Records `gpio_set_level(pin, lvl)`. -/
  | level (pin : Nat) (lvl : Nat)
  /-- Records `vTaskDelay(pdMS_TO_TICKS(ms))`. -/
  | delay (ms : Nat)
deriving DecidableEq, Repr

/-! ## Constants of `liquid_crystal.c` -/

def LCD_CLEAR : Nat := 0x01
def LCD_HOME : Nat := 0x02
def LCD_CURSOR : Nat := 0x04
def LCD_DISPLAY : Nat := 0x08
def LCD_SHIFT : Nat := 0x10
def LCD_SETTINGS : Nat := 0x20
def LCD_CGRAM : Nat := 0x40
def LCD_DDRAM : Nat := 0x80

def LCD_SHIFT_L : Nat := 0x02
def LCD_SHIFT_R : Nat := 0x00
def LCD_INC_MODE : Nat := 0x01
def LCD_DEC_MODE : Nat := 0x00

def LCD_DISPLAY_ON : Nat := 0x04
def LCD_DISPLAY_OFF : Nat := 0x00
def LCD_CURSOR_ON : Nat := 0x02
def LCD_CURSOR_OFF : Nat := 0x00
def LCD_BLINK_ON : Nat := 0x01
def LCD_BLINK_OFF : Nat := 0x00

def LCD_SHIFT_DISPLAY : Nat := 0x08
def LCD_SHIFT_CURSOR : Nat := 0x00
def LCD_SHIFT_RIGHT : Nat := 0x04
def LCD_SHIFT_LEFT : Nat := 0x00

def LCD_8BIT_MODE : Nat := 0x10
def LCD_4BIT_MODE : Nat := 0x00
def LCD_2LINE_MODE : Nat := 0x08
def LCD_1LINE_MODE : Nat := 0x00
def LCD_5x10DOTS : Nat := 0x04
def LCD_5x7DOTS : Nat := 0x00

/-- The pin number `GPIO_NUM_NC` (-1 on the platform) once stored in a `uint8_t` field. -/
def GPIO_NUM_NC_u8 : Nat := 255

/-! ## Data model -/

/-- The device descriptor `liquid_crystal_t` of `liquid_crystal.h`.  The arrays `data_pins[8]` and
`row_offsets[4]` are lists; `data_pin` and `row_offset` read them. -/
structure liquid_crystal_t where
  rs_pin : Nat
  rw_pin : Nat
  enable_pin : Nat
  data_pins : List Nat
  num_lines : Nat
  row_offsets : List Nat
  is_8bit : Bool
  is_2rows : Bool
  is_large_font : Bool
deriving DecidableEq, Repr

/-- A descriptor is well formed for its C type: eight data pins, four row offsets, and every
`uint8_t` field below 256. -/
def liquid_crystal_t.wf (lcd : liquid_crystal_t) : Prop :=
  lcd.rs_pin < 256 ∧ lcd.rw_pin < 256 ∧ lcd.enable_pin < 256 ∧ lcd.num_lines < 256 ∧
  lcd.data_pins.length = 8 ∧ (∀ p ∈ lcd.data_pins, p < 256) ∧
  lcd.row_offsets.length = 4 ∧ (∀ o ∈ lcd.row_offsets, o < 256)

instance (lcd : liquid_crystal_t) : Decidable lcd.wf := by
  unfold liquid_crystal_t.wf; infer_instance

/-- The array read `lcd->data_pins[i]`.  Every index the driver uses is below 8. -/
def liquid_crystal_t.data_pin (lcd : liquid_crystal_t) (i : Nat) : Nat :=
  lcd.data_pins.getD i 0

/-- The array read `lcd->row_offsets[row]`.  A read at an index of 4 or more is outside the array
in C; the embedding gives 0 there, and the theorems on `lcd_set_cursor` that rely on the value
read keep the index below 4. -/
def liquid_crystal_t.row_offset (lcd : liquid_crystal_t) (row : Nat) : Nat :=
  lcd.row_offsets.getD row 0

/-- The state threaded through the driver: the descriptor behind the `lcd` pointer, the code the
platform GPIO driver returns for each pin number, and the capability calls made so far. -/
structure World where
  lcd : liquid_crystal_t
  gpio_err : Nat → esp_err_t
  trace : List Event

/-! ## Platform capabilities -/

/-- The platform call `gpio_set_direction(pin, mode)`: the call is logged and the GPIO driver's
code for the pin is returned. -/
def gpio_set_direction (pin : Nat) (mode : gpio_mode_t) (w : World) : esp_err_t × World :=
  (w.gpio_err pin, { w with trace := w.trace ++ [Event.direction pin mode] })

/-- The platform call `gpio_set_level(pin, level)`. -/
def gpio_set_level (pin : Nat) (level : Nat) (w : World) : esp_err_t × World :=
  (w.gpio_err pin, { w with trace := w.trace ++ [Event.level pin level] })

/-- The platform call `vTaskDelay(pdMS_TO_TICKS(ms))`, logged with the milliseconds asked for. -/
def vTaskDelay_ms (ms : Nat) (w : World) : World :=
  { w with trace := w.trace ++ [Event.delay ms] }

/-! ## Private functions of the driver -/

/-- The function `pulse(pin)` of the source. -/
def pulse (pin : Nat) (w : World) : World :=
  let w := (gpio_set_level pin 0 w).2
  let w := vTaskDelay_ms 1 w
  let w := (gpio_set_level pin 1 w).2
  let w := vTaskDelay_ms 1 w
  let w := (gpio_set_level pin 0 w).2
  vTaskDelay_ms 1 w

/-- The loop `for (int i = 0; i < n; i++) gpio_set_level(lcd->data_pins[i], (value >> i) & 0x01);`
which the source repeats in `send_command` and in `lcd_init`.  The result of each call is
dropped, as in the source. -/
def set_data_bits (n : Nat) (value : Nat) (w : World) : World :=
  (List.range n).foldl
    (fun w i => (gpio_set_level (w.lcd.data_pin i) ((value >>> i) &&& 0x01) w).2) w

/-- The function `send_command(lcd, value, write)` of the source.  The parameter `value` has type
`uint8_t`: an `int` argument is converted on entry, which is the reduction modulo 256 of the
first line.  The function returns `ESP_OK` whatever the GPIO calls returned. -/
def send_command (value : Nat) (write : Bool) (w : World) : esp_err_t × World :=
  let value := value % 256
  let w := (gpio_set_level w.lcd.rs_pin write.toNat w).2
  let w :=
    if w.lcd.is_8bit then
      let w := set_data_bits 8 value w
      pulse w.lcd.enable_pin w
    else
      let msb_val := (value >>> 4) % 256
      let w := set_data_bits 4 msb_val w
      let w := pulse w.lcd.enable_pin w
      let w := set_data_bits 4 value w
      pulse w.lcd.enable_pin w
  let w := vTaskDelay_ms 1 w
  (ESP_OK, w)

/-! ## Public functions of the driver -/

/-- The function-set byte `config` that `lcd_init` builds from the descriptor. -/
def lcd_init_config (lcd : liquid_crystal_t) : Nat :=
  LCD_SETTINGS
    ||| (if lcd.is_8bit then LCD_8BIT_MODE else LCD_4BIT_MODE)
    ||| (if lcd.is_2rows then LCD_2LINE_MODE else LCD_1LINE_MODE)
    ||| (if lcd.is_large_font then LCD_5x10DOTS else LCD_5x7DOTS)

/-- The function `lcd_init(lcd)` of the source.  The two `ESP_LOGE` calls write to the log
console and touch no pin; they are not part of the trace. -/
def lcd_init (w : World) : esp_err_t × World :=
  if w.lcd.rs_pin = 0 ∨ w.lcd.enable_pin = 0 then
    (ESP_ERR_INVALID_ARG, w)
  else if w.lcd.num_lines > 4 ∨ w.lcd.num_lines < 1 then
    (ESP_ERR_INVALID_ARG, w)
  else
    let w := (gpio_set_direction w.lcd.rs_pin gpio_mode_t.GPIO_MODE_OUTPUT w).2
    let w := (gpio_set_level w.lcd.rs_pin 0 w).2
    let w := (gpio_set_direction w.lcd.rw_pin gpio_mode_t.GPIO_MODE_OUTPUT w).2
    let w := (gpio_set_level w.lcd.rw_pin 0 w).2
    let w := (gpio_set_direction w.lcd.enable_pin gpio_mode_t.GPIO_MODE_OUTPUT w).2
    let w := (gpio_set_level w.lcd.enable_pin 0 w).2
    let nb_bits := if w.lcd.is_8bit then 8 else 4
    let w := (List.range nb_bits).foldl
      (fun w i =>
        let w := (gpio_set_direction (w.lcd.data_pin i) gpio_mode_t.GPIO_MODE_OUTPUT w).2
        (gpio_set_level (w.lcd.data_pin i) 0 w).2) w
    let config := lcd_init_config w.lcd
    let w := vTaskDelay_ms 50 w
    let w :=
      if w.lcd.is_8bit then
        let w := (send_command config false w).2
        let w := vTaskDelay_ms 5 w
        let w := (send_command config false w).2
        let w := vTaskDelay_ms 1 w
        (send_command config false w).2
      else
        let w := set_data_bits 4 0x03 w
        let w := pulse w.lcd.enable_pin w
        let w := vTaskDelay_ms 5 w
        let w := set_data_bits 4 0x03 w
        let w := pulse w.lcd.enable_pin w
        let w := vTaskDelay_ms 5 w
        let w := set_data_bits 4 0x03 w
        let w := pulse w.lcd.enable_pin w
        let w := vTaskDelay_ms 1 w
        let w := set_data_bits 4 0x02 w
        pulse w.lcd.enable_pin w
    let w := (send_command config false w).2
    let w := (send_command (LCD_DISPLAY ||| LCD_DISPLAY_ON ||| LCD_CURSOR_OFF ||| LCD_BLINK_OFF)
      false w).2
    let w := (send_command (LCD_CURSOR ||| LCD_SHIFT_L ||| LCD_DEC_MODE) false w).2
    (ESP_OK, w)

/-- The function `lcd_home(lcd)` of the source. -/
def lcd_home (w : World) : esp_err_t × World :=
  let r := send_command LCD_HOME false w
  (r.1, vTaskDelay_ms 50 r.2)

/-- The function `lcd_clear(lcd)` of the source. -/
def lcd_clear (w : World) : esp_err_t × World :=
  let r := send_command LCD_CLEAR false w
  (r.1, vTaskDelay_ms 50 r.2)

/-- The function `lcd_display_mode(lcd, enabled, cursor, blink)` of the source. -/
def lcd_display_mode (enabled cursor blink : Bool) (w : World) : esp_err_t × World :=
  send_command (LCD_DISPLAY
    ||| (if enabled then LCD_DISPLAY_ON else LCD_DISPLAY_OFF)
    ||| (if cursor then LCD_CURSOR_ON else LCD_CURSOR_OFF)
    ||| (if blink then LCD_BLINK_ON else LCD_BLINK_OFF)) false w

/-- The function `lcd_scroll_left(lcd)` of the source. -/
def lcd_scroll_left (w : World) : esp_err_t × World :=
  send_command (LCD_SHIFT ||| LCD_SHIFT_DISPLAY ||| LCD_SHIFT_LEFT) false w

/-- The function `lcd_scroll_right(lcd)` of the source. -/
def lcd_scroll_right (w : World) : esp_err_t × World :=
  send_command (LCD_SHIFT ||| LCD_SHIFT_DISPLAY ||| LCD_SHIFT_RIGHT) false w

/-- The function `lcd_left_to_right(lcd, autoscroll)` of the source. -/
def lcd_left_to_right (autoscroll : Bool) (w : World) : esp_err_t × World :=
  send_command (LCD_CURSOR ||| LCD_SHIFT_L ||| (if autoscroll then LCD_INC_MODE else LCD_DEC_MODE))
    false w

/-- The function `lcd_right_to_left(lcd, autoscroll)` of the source. -/
def lcd_right_to_left (autoscroll : Bool) (w : World) : esp_err_t × World :=
  send_command (LCD_CURSOR ||| LCD_SHIFT_R ||| (if autoscroll then LCD_INC_MODE else LCD_DEC_MODE))
    false w

/-- The function `lcd_create_char(lcd, location, charmap)` of the source; `charmap` is the memory
the pointer refers to, read at the indices 0 to 7. -/
def lcd_create_char (location : Nat) (charmap : List Nat) (w : World) : esp_err_t × World :=
  if location > 7 then
    (ESP_ERR_INVALID_ARG, w)
  else
    let loc := location % 8
    let w := (send_command (LCD_CGRAM ||| (loc <<< 3)) false w).2
    let w := (List.range 8).foldl (fun w i => (send_command (charmap.getD i 0) true w).2) w
    (ESP_OK, w)

/-- The value of the local `row` of `lcd_set_cursor` when it indexes `row_offsets`: the two
clamping statements of the source.  `lcd->num_lines - 1` is computed in `int` and stored in the
`uint8_t` variable `row`. -/
def lcd_set_cursor_row (lcd : liquid_crystal_t) (row : Nat) : Nat :=
  let row := if row ≥ 4 then 3 else row
  let row := if row ≥ lcd.num_lines then (((lcd.num_lines : Int) - 1) % 256).toNat else row
  row

/-- The function `lcd_set_cursor(lcd, col, row)` of the source. -/
def lcd_set_cursor (col row : Nat) (w : World) : esp_err_t × World :=
  let row := lcd_set_cursor_row w.lcd row
  send_command (LCD_DDRAM ||| (col + w.lcd.row_offset row)) false w

/-- The function `lcd_write(lcd, data)` of the source. -/
def lcd_write (data : Nat) (w : World) : esp_err_t × World :=
  send_command data true w

/-- The library call `strlen(data)` on the bytes the pointer refers to: the number of bytes before
the first NUL (the end of the list stands for a terminator too). -/
def strlen (data : List Nat) : Nat :=
  (data.takeWhile (fun b => b != 0)).length

/-- The function `lcd_print(lcd, data)` of the source. -/
def lcd_print (data : List Nat) (w : World) : esp_err_t × World :=
  let size := strlen data
  let w := (List.range size).foldl (fun w i => (lcd_write (data.getD i 0) w).2) w
  (ESP_OK, w)

/-! ## The descriptor of the example application -/

/-- The descriptor that `app_main` of `example/main/main.c` initialises: the four data pins that
are listed, the other elements zero. -/
def app_main_lcd : liquid_crystal_t :=
  { rs_pin := 10, rw_pin := 11, enable_pin := 12,
    data_pins := [35, 36, 37, 38, 0, 0, 0, 0],
    num_lines := 2,
    row_offsets := [0x00, 0x40, 0x14, 0x54],
    is_8bit := false, is_2rows := true, is_large_font := false }

/-- A world in which every GPIO call succeeds and nothing has been called yet. -/
def fresh (lcd : liquid_crystal_t) : World :=
  { lcd := lcd, gpio_err := fun _ => ESP_OK, trace := [] }

/-- An 8-bit wiring of the same panel: eight data pins, two lines. -/
def eight_bit_lcd : liquid_crystal_t :=
  { rs_pin := 10, rw_pin := 11, enable_pin := 12,
    data_pins := [35, 36, 37, 38, 39, 40, 41, 42],
    num_lines := 2,
    row_offsets := [0x00, 0x40, 0x14, 0x54],
    is_8bit := true, is_2rows := true, is_large_font := false }

/-! ## Vocabulary of the specification -/

/-- Bit `i` of `n`, as a pin level. -/
def bit (n i : Nat) : Nat := (n.testBit i).toNat

/-- The calls of one enable pulse on pin `p`: low, high, low, each followed by 1 ms. -/
def pulse_events (p : Nat) : List Event :=
  [Event.level p 0, Event.delay 1, Event.level p 1, Event.delay 1, Event.level p 0, Event.delay 1]

/-- Data pins 0 to 3 set to bits 0 to 3 of `n`, in that order. -/
def nibble_events (lcd : liquid_crystal_t) (n : Nat) : List Event :=
  [Event.level (lcd.data_pin 0) (bit n 0), Event.level (lcd.data_pin 1) (bit n 1),
   Event.level (lcd.data_pin 2) (bit n 2), Event.level (lcd.data_pin 3) (bit n 3)]

/-- Data pins 0 to 7 set to bits 0 to 7 of `v`, in that order. -/
def byte_events (lcd : liquid_crystal_t) (v : Nat) : List Event :=
  [Event.level (lcd.data_pin 0) (bit v 0), Event.level (lcd.data_pin 1) (bit v 1),
   Event.level (lcd.data_pin 2) (bit v 2), Event.level (lcd.data_pin 3) (bit v 3),
   Event.level (lcd.data_pin 4) (bit v 4), Event.level (lcd.data_pin 5) (bit v 5),
   Event.level (lcd.data_pin 6) (bit v 6), Event.level (lcd.data_pin 7) (bit v 7)]

/-- A raw single-nibble pulse: the four data pins carry `n`, then one enable pulse. -/
def raw_nibble_events (lcd : liquid_crystal_t) (n : Nat) : List Event :=
  nibble_events lcd n ++ pulse_events lcd.enable_pin

/-- A full two-nibble transmission of the byte `v` on a 4-bit bus: register select, high nibble
and pulse, low nibble and pulse, 1 ms. -/
def transmit4_events (lcd : liquid_crystal_t) (v : Nat) (is_data : Bool) : List Event :=
  [Event.level lcd.rs_pin is_data.toNat]
    ++ raw_nibble_events lcd (v >>> 4) ++ raw_nibble_events lcd (v &&& 0xF) ++ [Event.delay 1]

/-- A full transmission of the byte `v` on an 8-bit bus: register select, the eight data pins,
one pulse, 1 ms. -/
def transmit8_events (lcd : liquid_crystal_t) (v : Nat) (is_data : Bool) : List Event :=
  [Event.level lcd.rs_pin is_data.toNat]
    ++ byte_events lcd v ++ pulse_events lcd.enable_pin ++ [Event.delay 1]

/-- What one call of `send_command` adds to the trace, for either bus width. -/
def transmit_events (lcd : liquid_crystal_t) (v : Nat) (is_data : Bool) : List Event :=
  if lcd.is_8bit then transmit8_events lcd v is_data else transmit4_events lcd v is_data

/-- The pin set-up of `lcd_init` on a 4-bit bus: the three control pins and data pins 0 to 3
made outputs and driven low. -/
def setup4_events (lcd : liquid_crystal_t) : List Event :=
  [Event.direction lcd.rs_pin gpio_mode_t.GPIO_MODE_OUTPUT, Event.level lcd.rs_pin 0,
   Event.direction lcd.rw_pin gpio_mode_t.GPIO_MODE_OUTPUT, Event.level lcd.rw_pin 0,
   Event.direction lcd.enable_pin gpio_mode_t.GPIO_MODE_OUTPUT, Event.level lcd.enable_pin 0,
   Event.direction (lcd.data_pin 0) gpio_mode_t.GPIO_MODE_OUTPUT, Event.level (lcd.data_pin 0) 0,
   Event.direction (lcd.data_pin 1) gpio_mode_t.GPIO_MODE_OUTPUT, Event.level (lcd.data_pin 1) 0,
   Event.direction (lcd.data_pin 2) gpio_mode_t.GPIO_MODE_OUTPUT, Event.level (lcd.data_pin 2) 0,
   Event.direction (lcd.data_pin 3) gpio_mode_t.GPIO_MODE_OUTPUT, Event.level (lcd.data_pin 3) 0]

/-- The pin set-up of `lcd_init` on an 8-bit bus: the three control pins and data pins 0 to 7
made outputs and driven low. -/
def setup8_events (lcd : liquid_crystal_t) : List Event :=
  [Event.direction lcd.rs_pin gpio_mode_t.GPIO_MODE_OUTPUT, Event.level lcd.rs_pin 0,
   Event.direction lcd.rw_pin gpio_mode_t.GPIO_MODE_OUTPUT, Event.level lcd.rw_pin 0,
   Event.direction lcd.enable_pin gpio_mode_t.GPIO_MODE_OUTPUT, Event.level lcd.enable_pin 0,
   Event.direction (lcd.data_pin 0) gpio_mode_t.GPIO_MODE_OUTPUT, Event.level (lcd.data_pin 0) 0,
   Event.direction (lcd.data_pin 1) gpio_mode_t.GPIO_MODE_OUTPUT, Event.level (lcd.data_pin 1) 0,
   Event.direction (lcd.data_pin 2) gpio_mode_t.GPIO_MODE_OUTPUT, Event.level (lcd.data_pin 2) 0,
   Event.direction (lcd.data_pin 3) gpio_mode_t.GPIO_MODE_OUTPUT, Event.level (lcd.data_pin 3) 0,
   Event.direction (lcd.data_pin 4) gpio_mode_t.GPIO_MODE_OUTPUT, Event.level (lcd.data_pin 4) 0,
   Event.direction (lcd.data_pin 5) gpio_mode_t.GPIO_MODE_OUTPUT, Event.level (lcd.data_pin 5) 0,
   Event.direction (lcd.data_pin 6) gpio_mode_t.GPIO_MODE_OUTPUT, Event.level (lcd.data_pin 6) 0,
   Event.direction (lcd.data_pin 7) gpio_mode_t.GPIO_MODE_OUTPUT, Event.level (lcd.data_pin 7) 0]

/-- The descriptor of the example application with the register-select pin left "not
connected". -/
def rs_nc_lcd : liquid_crystal_t :=
  { app_main_lcd with rs_pin := GPIO_NUM_NC_u8 }

/-- The descriptor of the example application with the register-select pin left zero. -/
def rs_zero_lcd : liquid_crystal_t :=
  { app_main_lcd with rs_pin := 0 }

/-- The first glyph of the example application (`hourglass[0]`). -/
def hourglass_0 : List Nat := [0x00, 0x1F, 0x1F, 0x0E, 0x04, 0x0A, 0x11, 0x1F]

/-- Generic failure code of the platform (`esp_err.h`). -/
def ESP_FAIL : esp_err_t := -1

/-- A world in which every GPIO call fails with `ESP_FAIL` and nothing has been called yet. -/
def failing (lcd : liquid_crystal_t) : World :=
  { lcd := lcd, gpio_err := fun _ => ESP_FAIL, trace := [] }

/-- The C string "AB" as it lies in memory, terminator included. -/
def str_AB : List Nat := [0x41, 0x42, 0]

/-- The instruction byte that `lcd_display_mode` builds: the argument of its `send_command`
call. -/
def display_mode_byte (enabled cursor blink : Bool) : Nat :=
  LCD_DISPLAY
    ||| (if enabled then LCD_DISPLAY_ON else LCD_DISPLAY_OFF)
    ||| (if cursor then LCD_CURSOR_ON else LCD_CURSOR_OFF)
    ||| (if blink then LCD_BLINK_ON else LCD_BLINK_OFF)

/-- Decoding of a display-control instruction byte: bit 2 is display on, bit 1 cursor on, bit 0
blink on. -/
def decode_display_mode (b : Nat) : Bool × Bool × Bool :=
  (b.testBit 2, b.testBit 1, b.testBit 0)

/-- The function-set byte in the words of the specification, with the two-line bit taken from the
line count. -/
def function_set_by_line_count (lcd : liquid_crystal_t) : Nat :=
  0x20
    ||| (if lcd.is_8bit then 0x10 else 0)
    ||| (if lcd.num_lines ≥ 2 then 0x08 else 0)
    ||| (if lcd.is_large_font then 0x04 else 0)

/-- The descriptor of the example application with the two-row flag cleared; the line count is
still 2. -/
def two_lines_one_row_lcd : liquid_crystal_t :=
  { app_main_lcd with is_2rows := false }

/-- The level last written to pin `p` in a trace, if any. -/
def last_level (p : Nat) (t : List Event) : Option Nat :=
  t.foldl
    (fun acc e =>
      match e with
      | Event.level q l => if q = p then some l else acc
      | _ => acc) none

/-- Every GPIO call of the trace is on pin `p`. -/
def writes_only (p : Nat) (t : List Event) : Bool :=
  t.all
    (fun e =>
      match e with
      | Event.level q _ => q == p
      | Event.direction q _ => q == p
      | Event.delay _ => true)

/-! ## Lemmas on the transport layer -/

theorem shift_mod_two (v i : Nat) : v >>> i % 2 = bit v i := by
  unfold bit
  rw [Nat.shiftRight_eq_div_pow, Nat.toNat_testBit]

theorem mod_two_eq_bit (v : Nat) : v % 2 = bit v 0 := by
  simpa using shift_mod_two v 0

theorem set_data_bits_four (v : Nat) (w : World) :
    set_data_bits 4 v w = { w with trace := w.trace ++ nibble_events w.lcd v } := by
  simp [set_data_bits, List.range_succ, gpio_set_level, nibble_events, shift_mod_two]

theorem set_data_bits_eight (v : Nat) (w : World) :
    set_data_bits 8 v w = { w with trace := w.trace ++ byte_events w.lcd v } := by
  simp [set_data_bits, List.range_succ, gpio_set_level, byte_events, shift_mod_two]

theorem pulse_eq (p : Nat) (w : World) :
    pulse p w = { w with trace := w.trace ++ pulse_events p } := by
  simp [pulse, gpio_set_level, vTaskDelay_ms, pulse_events]

theorem bit_mod_256 (v i : Nat) (hi : i < 8) : bit (v % 256) i = bit v i := by
  unfold bit
  rw [show (256 : Nat) = 2 ^ 8 from rfl, Nat.testBit_mod_two_pow]
  simp [hi]

theorem bit_and_15 (v i : Nat) (hi : i < 4) : bit (v &&& 0xF) i = bit v i := by
  unfold bit
  rw [Nat.testBit_and]
  have h : Nat.testBit 0xF i = true := by
    interval_cases i <;> decide
  simp [h]

theorem bit_shift_4 (v i : Nat) : bit (v >>> 4) i = bit v (4 + i) := by
  unfold bit
  rw [Nat.testBit_shiftRight]

theorem nibble_events_congr (lcd : liquid_crystal_t) (a b : Nat)
    (h : ∀ i, i < 4 → bit a i = bit b i) : nibble_events lcd a = nibble_events lcd b := by
  simp [nibble_events, h 0, h 1, h 2, h 3]

theorem byte_events_congr (lcd : liquid_crystal_t) (a b : Nat)
    (h : ∀ i, i < 8 → bit a i = bit b i) : byte_events lcd a = byte_events lcd b := by
  simp [byte_events, h 0, h 1, h 2, h 3, h 4, h 5, h 6, h 7]

theorem nibble_events_low (lcd : liquid_crystal_t) (v : Nat) :
    nibble_events lcd (v % 256) = nibble_events lcd (v &&& 0xF) := by
  apply nibble_events_congr
  intro i hi
  rw [bit_mod_256 v i (by omega), bit_and_15 v i hi]

theorem nibble_events_high (lcd : liquid_crystal_t) (v : Nat) :
    nibble_events lcd ((v % 256) >>> 4 % 256) = nibble_events lcd ((v % 256) >>> 4) := by
  apply nibble_events_congr
  intro i hi
  rw [bit_mod_256 _ i (by omega)]

/-- One call of `send_command` returns `ESP_OK`, leaves the descriptor and the GPIO driver as they
were, and appends the transmission of `value % 256` to the trace. -/
theorem send_command_eq (v : Nat) (d : Bool) (w : World) :
    send_command v d w
      = (ESP_OK, { w with trace := w.trace ++ transmit_events w.lcd (v % 256) d }) := by
  cases h : w.lcd.is_8bit
  · simp [send_command, h, transmit_events, transmit4_events, raw_nibble_events,
      set_data_bits_four, pulse_eq, gpio_set_level, vTaskDelay_ms, nibble_events_high]
    rw [← nibble_events_low w.lcd (v % 256)]
    simp
  · simp [send_command, h, transmit_events, transmit8_events,
      set_data_bits_eight, pulse_eq, gpio_set_level, vTaskDelay_ms]

/-! ## Bus transport -/

/-- Claim C1: on a 4-bit bus, `send_command(v, is_data)` for a byte `v` adds to the trace exactly
the register-select write of `is_data`, data pins 0..3 carrying bits 0..3 of the high nibble
`v >> 4`, one enable pulse, data pins 0..3 carrying bits 0..3 of the low nibble `v & 0xF`, a second
enable pulse and a 1 ms delay, in that order. -/
theorem send_command_4bit_trace (v : Nat) (is_data : Bool) (w : World)
    (hv : v < 256) (h4 : w.lcd.is_8bit = false) :
    (send_command v is_data w).2.trace
      = w.trace ++
        ([Event.level w.lcd.rs_pin is_data.toNat]
          ++ nibble_events w.lcd (v >>> 4) ++ pulse_events w.lcd.enable_pin
          ++ nibble_events w.lcd (v &&& 0xF) ++ pulse_events w.lcd.enable_pin
          ++ [Event.delay 1]) := by
  rw [send_command_eq]
  simp [transmit_events, h4, transmit4_events, raw_nibble_events, Nat.mod_eq_of_lt hv]

theorem send_command_4bit_trace_witness :
    (send_command 0xC4 false (fresh app_main_lcd)).2.trace
      = (fresh app_main_lcd).trace ++
        ([Event.level (fresh app_main_lcd).lcd.rs_pin false.toNat]
          ++ nibble_events (fresh app_main_lcd).lcd (0xC4 >>> 4)
          ++ pulse_events (fresh app_main_lcd).lcd.enable_pin
          ++ nibble_events (fresh app_main_lcd).lcd (0xC4 &&& 0xF)
          ++ pulse_events (fresh app_main_lcd).lcd.enable_pin
          ++ [Event.delay 1]) :=
  send_command_4bit_trace 0xC4 false (fresh app_main_lcd) (by decide) rfl

/-- Claim C2: on an 8-bit bus, `send_command(v, is_data)` for a byte `v` adds to the trace exactly
the register-select write of `is_data`, data pin `i` carrying bit `i` of `v` for `i` from 0 to 7,
one enable pulse and a 1 ms delay; there is no second pulse. -/
theorem send_command_8bit_trace (v : Nat) (is_data : Bool) (w : World)
    (hv : v < 256) (h8 : w.lcd.is_8bit = true) :
    (send_command v is_data w).2.trace
      = w.trace ++
        ([Event.level w.lcd.rs_pin is_data.toNat]
          ++ byte_events w.lcd v ++ pulse_events w.lcd.enable_pin ++ [Event.delay 1]) := by
  rw [send_command_eq]
  simp [transmit_events, h8, transmit8_events, Nat.mod_eq_of_lt hv]

theorem send_command_8bit_trace_witness :
    (send_command 0x41 true (fresh eight_bit_lcd)).2.trace
      = (fresh eight_bit_lcd).trace ++
        ([Event.level (fresh eight_bit_lcd).lcd.rs_pin true.toNat]
          ++ byte_events (fresh eight_bit_lcd).lcd 0x41
          ++ pulse_events (fresh eight_bit_lcd).lcd.enable_pin ++ [Event.delay 1]) :=
  send_command_8bit_trace 0x41 true (fresh eight_bit_lcd) (by decide) rfl

/-! ## Initialisation -/

theorem lcd_init_config_lt (lcd : liquid_crystal_t) : lcd_init_config lcd < 256 := by
  unfold lcd_init_config
  cases lcd.is_8bit <;> cases lcd.is_2rows <;> cases lcd.is_large_font <;> decide

/-- On a 4-bit bus a descriptor that passes validation is initialised by the pin set-up, the
50 ms wait, the four raw nibbles with their waits, and three full transmissions. -/
theorem lcd_init_4bit_eq (w : World)
    (hrs : w.lcd.rs_pin ≠ 0) (hen : w.lcd.enable_pin ≠ 0)
    (hlo : 1 ≤ w.lcd.num_lines) (hhi : w.lcd.num_lines ≤ 4) (h4 : w.lcd.is_8bit = false) :
    lcd_init w
      = (ESP_OK, { w with trace := w.trace ++
          (setup4_events w.lcd ++ [Event.delay 50]
            ++ raw_nibble_events w.lcd 0b0011 ++ [Event.delay 5]
            ++ raw_nibble_events w.lcd 0b0011 ++ [Event.delay 5]
            ++ raw_nibble_events w.lcd 0b0011 ++ [Event.delay 1]
            ++ raw_nibble_events w.lcd 0b0010
            ++ transmit4_events w.lcd (lcd_init_config w.lcd) false
            ++ transmit4_events w.lcd 0x0C false
            ++ transmit4_events w.lcd 0x06 false) }) := by
  have h1 : ¬ (w.lcd.rs_pin = 0 ∨ w.lcd.enable_pin = 0) := by
    rintro (h | h)
    · exact hrs h
    · exact hen h
  have h2 : ¬ (w.lcd.num_lines > 4 ∨ w.lcd.num_lines < 1) := by omega
  have hc : lcd_init_config w.lcd % 256 = lcd_init_config w.lcd :=
    Nat.mod_eq_of_lt (lcd_init_config_lt w.lcd)
  have hd : (LCD_DISPLAY ||| LCD_DISPLAY_ON ||| LCD_CURSOR_OFF ||| LCD_BLINK_OFF) % 256 = 0x0C := by
    decide
  have he : (LCD_CURSOR ||| LCD_SHIFT_L ||| LCD_DEC_MODE) % 256 = 0x06 := by decide
  unfold lcd_init
  rw [if_neg h1, if_neg h2]
  simp only [send_command_eq, set_data_bits_four, pulse_eq, gpio_set_level, gpio_set_direction,
    vTaskDelay_ms, h4, hc, hd, he, transmit_events, raw_nibble_events, setup4_events,
    List.range_succ, List.range_zero, List.foldl_cons, List.foldl_nil, List.nil_append,
    List.append_assoc, List.cons_append, Bool.false_eq_true, if_false, List.foldl_append]

/-- On an 8-bit bus a descriptor that passes validation is initialised by the pin set-up, the
50 ms wait, three function-set transmissions with their waits, and three more transmissions. -/
theorem lcd_init_8bit_eq (w : World)
    (hrs : w.lcd.rs_pin ≠ 0) (hen : w.lcd.enable_pin ≠ 0)
    (hlo : 1 ≤ w.lcd.num_lines) (hhi : w.lcd.num_lines ≤ 4) (h8 : w.lcd.is_8bit = true) :
    lcd_init w
      = (ESP_OK, { w with trace := w.trace ++
          (setup8_events w.lcd ++ [Event.delay 50]
            ++ transmit8_events w.lcd (lcd_init_config w.lcd) false ++ [Event.delay 5]
            ++ transmit8_events w.lcd (lcd_init_config w.lcd) false ++ [Event.delay 1]
            ++ transmit8_events w.lcd (lcd_init_config w.lcd) false
            ++ transmit8_events w.lcd (lcd_init_config w.lcd) false
            ++ transmit8_events w.lcd 0x0C false
            ++ transmit8_events w.lcd 0x06 false) }) := by
  have h1 : ¬ (w.lcd.rs_pin = 0 ∨ w.lcd.enable_pin = 0) := by
    rintro (h | h)
    · exact hrs h
    · exact hen h
  have h2 : ¬ (w.lcd.num_lines > 4 ∨ w.lcd.num_lines < 1) := by omega
  have hc : lcd_init_config w.lcd % 256 = lcd_init_config w.lcd :=
    Nat.mod_eq_of_lt (lcd_init_config_lt w.lcd)
  have hd : (LCD_DISPLAY ||| LCD_DISPLAY_ON ||| LCD_CURSOR_OFF ||| LCD_BLINK_OFF) % 256 = 0x0C := by
    decide
  have he : (LCD_CURSOR ||| LCD_SHIFT_L ||| LCD_DEC_MODE) % 256 = 0x06 := by decide
  unfold lcd_init
  rw [if_neg h1, if_neg h2]
  simp only [send_command_eq, gpio_set_level, gpio_set_direction,
    vTaskDelay_ms, h8, hc, hd, he, transmit_events, setup8_events,
    List.range_succ, List.range_zero, List.foldl_cons, List.foldl_nil, List.nil_append,
    List.append_assoc, List.cons_append, if_true, List.foldl_append]

/-- A descriptor that fails validation is refused and nothing is called. -/
theorem lcd_init_refused (w : World)
    (h : w.lcd.rs_pin = 0 ∨ w.lcd.enable_pin = 0 ∨ w.lcd.num_lines < 1 ∨ 4 < w.lcd.num_lines) :
    lcd_init w = (ESP_ERR_INVALID_ARG, w) := by
  unfold lcd_init
  by_cases h1 : w.lcd.rs_pin = 0 ∨ w.lcd.enable_pin = 0
  · rw [if_pos h1]
  · have h2 : w.lcd.num_lines > 4 ∨ w.lcd.num_lines < 1 := by
      rcases h with h | h | h | h
      · exact absurd (Or.inl h) h1
      · exact absurd (Or.inr h) h1
      · exact Or.inr h
      · exact Or.inl h
    rw [if_neg h1, if_pos h2]

/-- A descriptor that passes validation is initialised: the result is `ESP_OK` and the first call
configures the register-select pin as an output. -/
theorem lcd_init_accepted (w : World)
    (hrs : w.lcd.rs_pin ≠ 0) (hen : w.lcd.enable_pin ≠ 0)
    (hlo : 1 ≤ w.lcd.num_lines) (hhi : w.lcd.num_lines ≤ 4) :
    (lcd_init w).1 = ESP_OK ∧
    ∃ rest, (lcd_init w).2.trace
      = w.trace ++ Event.direction w.lcd.rs_pin gpio_mode_t.GPIO_MODE_OUTPUT :: rest := by
  cases h : w.lcd.is_8bit
  · rw [lcd_init_4bit_eq w hrs hen hlo hhi h]
    exact ⟨rfl, _, by simp [setup4_events]; rfl⟩
  · rw [lcd_init_8bit_eq w hrs hen hlo hhi h]
    exact ⟨rfl, _, by simp [setup8_events]; rfl⟩

/-- Claim C3: on a 4-bit bus, for a descriptor that passes validation, the trace of `lcd_init` is
the pin set-up, the 50 ms power-up wait, then exactly four raw single-nibble pulses carrying
0b0011, 0b0011, 0b0011 and 0b0010 on data pins 0..3 (separated by waits of 5, 5 and 1 ms and by
nothing else), and only then the first full two-nibble transmission, that of the function-set
byte, followed by the two default-setting transmissions. -/
theorem lcd_init_4bit_raw_nibbles (w : World)
    (hrs : w.lcd.rs_pin ≠ 0) (hen : w.lcd.enable_pin ≠ 0)
    (hlo : 1 ≤ w.lcd.num_lines) (hhi : w.lcd.num_lines ≤ 4) (h4 : w.lcd.is_8bit = false) :
    (lcd_init w).2.trace
      = w.trace ++
        (setup4_events w.lcd ++ [Event.delay 50]
          ++ (nibble_events w.lcd 0b0011 ++ pulse_events w.lcd.enable_pin) ++ [Event.delay 5]
          ++ (nibble_events w.lcd 0b0011 ++ pulse_events w.lcd.enable_pin) ++ [Event.delay 5]
          ++ (nibble_events w.lcd 0b0011 ++ pulse_events w.lcd.enable_pin) ++ [Event.delay 1]
          ++ (nibble_events w.lcd 0b0010 ++ pulse_events w.lcd.enable_pin)
          ++ transmit4_events w.lcd (lcd_init_config w.lcd) false
          ++ transmit4_events w.lcd 0x0C false
          ++ transmit4_events w.lcd 0x06 false) := by
  rw [lcd_init_4bit_eq w hrs hen hlo hhi h4]
  rfl

theorem lcd_init_4bit_raw_nibbles_witness :
    (lcd_init (fresh app_main_lcd)).2.trace
      = (fresh app_main_lcd).trace ++
        (setup4_events (fresh app_main_lcd).lcd ++ [Event.delay 50]
          ++ (nibble_events (fresh app_main_lcd).lcd 0b0011
              ++ pulse_events (fresh app_main_lcd).lcd.enable_pin) ++ [Event.delay 5]
          ++ (nibble_events (fresh app_main_lcd).lcd 0b0011
              ++ pulse_events (fresh app_main_lcd).lcd.enable_pin) ++ [Event.delay 5]
          ++ (nibble_events (fresh app_main_lcd).lcd 0b0011
              ++ pulse_events (fresh app_main_lcd).lcd.enable_pin) ++ [Event.delay 1]
          ++ (nibble_events (fresh app_main_lcd).lcd 0b0010
              ++ pulse_events (fresh app_main_lcd).lcd.enable_pin)
          ++ transmit4_events (fresh app_main_lcd).lcd
              (lcd_init_config (fresh app_main_lcd).lcd) false
          ++ transmit4_events (fresh app_main_lcd).lcd 0x0C false
          ++ transmit4_events (fresh app_main_lcd).lcd 0x06 false) :=
  lcd_init_4bit_raw_nibbles (fresh app_main_lcd) (by decide) (by decide) (by decide) (by decide)
    rfl

/-- Claim C4: `lcd_init` returns `ESP_ERR_INVALID_ARG` and makes no capability call (the world,
trace included, is unchanged) whenever `rs_pin` is 0, or `enable_pin` is 0, or `num_lines` is
outside [1,4]; for every other descriptor it returns `ESP_OK`. -/
theorem lcd_init_validation (w : World) :
    ((w.lcd.rs_pin = 0 ∨ w.lcd.enable_pin = 0 ∨ w.lcd.num_lines < 1 ∨ 4 < w.lcd.num_lines) →
      (lcd_init w).1 = ESP_ERR_INVALID_ARG ∧ (lcd_init w).2 = w ∧
        (lcd_init w).2.trace = w.trace) ∧
    (¬ (w.lcd.rs_pin = 0 ∨ w.lcd.enable_pin = 0 ∨ w.lcd.num_lines < 1 ∨ 4 < w.lcd.num_lines) →
      (lcd_init w).1 = ESP_OK) := by
  constructor
  · intro h
    rw [lcd_init_refused w h]
    exact ⟨rfl, rfl, rfl⟩
  · intro h
    have hrs : w.lcd.rs_pin ≠ 0 := fun e => h (Or.inl e)
    have hen : w.lcd.enable_pin ≠ 0 := fun e => h (Or.inr (Or.inl e))
    have hlo : 1 ≤ w.lcd.num_lines := by
      by_contra e
      exact h (Or.inr (Or.inr (Or.inl (by omega))))
    have hhi : w.lcd.num_lines ≤ 4 := by
      by_contra e
      exact h (Or.inr (Or.inr (Or.inr (by omega))))
    exact (lcd_init_accepted w hrs hen hlo hhi).1

theorem lcd_init_validation_witness :
    ((lcd_init (fresh rs_zero_lcd)).1 = ESP_ERR_INVALID_ARG ∧
      (lcd_init (fresh rs_zero_lcd)).2 = fresh rs_zero_lcd ∧
        (lcd_init (fresh rs_zero_lcd)).2.trace = (fresh rs_zero_lcd).trace) ∧
    (lcd_init (fresh app_main_lcd)).1 = ESP_OK :=
  ⟨(lcd_init_validation (fresh rs_zero_lcd)).1 (Or.inl rfl),
   (lcd_init_validation (fresh app_main_lcd)).2 (by decide)⟩

/-- Claim C5, as stated, fails: with `rs_pin` holding `GPIO_NUM_NC` as a `uint8_t` (255) and the
other fields of the example descriptor, `lcd_init` returns `ESP_OK`, not the configuration error,
and it does call `gpio_set_direction`, first of all on pin 255. -/
theorem lcd_init_rs_not_connected_accepted :
    rs_nc_lcd.wf ∧
    (lcd_init (fresh rs_nc_lcd)).1 = ESP_OK ∧
    (lcd_init (fresh rs_nc_lcd)).1 ≠ ESP_ERR_INVALID_ARG ∧
    (lcd_init (fresh rs_nc_lcd)).2.trace.head?
      = some (Event.direction 255 gpio_mode_t.GPIO_MODE_OUTPUT) := by
  set_option maxRecDepth 8000 in decide

/-- Claim C5, amended: for a descriptor whose other fields are valid, `lcd_init` returns the
configuration error exactly when `rs_pin` is 0, and then makes no capability call; a `rs_pin`
holding `GPIO_NUM_NC` as a `uint8_t` (255) is accepted, the result is `ESP_OK` and the first call
is `gpio_set_direction` on pin 255. -/
theorem lcd_init_rs_unset_is_zero (w : World)
    (hen : w.lcd.enable_pin ≠ 0) (hlo : 1 ≤ w.lcd.num_lines) (hhi : w.lcd.num_lines ≤ 4) :
    ((lcd_init w).1 = ESP_ERR_INVALID_ARG ↔ w.lcd.rs_pin = 0) ∧
    (w.lcd.rs_pin = 0 → (lcd_init w).2 = w) ∧
    (w.lcd.rs_pin = GPIO_NUM_NC_u8 →
      (lcd_init w).1 = ESP_OK ∧
      ∃ rest, (lcd_init w).2.trace
        = w.trace ++ Event.direction GPIO_NUM_NC_u8 gpio_mode_t.GPIO_MODE_OUTPUT :: rest) := by
  refine ⟨⟨fun h => ?_, fun h => ?_⟩, fun h => ?_, fun h => ?_⟩
  · by_contra hrs
    rw [(lcd_init_accepted w hrs hen hlo hhi).1] at h
    exact absurd h (by decide)
  · rw [lcd_init_refused w (Or.inl h)]
  · rw [lcd_init_refused w (Or.inl h)]
  · have hrs : w.lcd.rs_pin ≠ 0 := by
      rw [h]
      decide
    have := lcd_init_accepted w hrs hen hlo hhi
    rw [h] at this
    exact this

theorem lcd_init_rs_unset_is_zero_witness :
    (lcd_init (fresh rs_nc_lcd)).1 = ESP_OK ∧
    ∃ rest, (lcd_init (fresh rs_nc_lcd)).2.trace
      = (fresh rs_nc_lcd).trace
          ++ Event.direction GPIO_NUM_NC_u8 gpio_mode_t.GPIO_MODE_OUTPUT :: rest :=
  (lcd_init_rs_unset_is_zero (fresh rs_nc_lcd) (by decide) (by decide) (by decide)).2.2 rfl

/-! ## Cursor addressing -/

theorem ddram_or (x : Nat) (h : x < 0x80) : 0x80 ||| x = 0x80 + x := by
  have h7 : x < 2 ^ 7 := h
  have := Nat.mul_add_lt_is_or h7 1
  simpa using this.symm

/-- With at least one line, the two clamping statements select `min (min row 3) (num_lines - 1)`. -/
theorem lcd_set_cursor_row_eq (lcd : liquid_crystal_t) (row : Nat) (hlo : 1 ≤ lcd.num_lines) :
    lcd_set_cursor_row lcd row = min (min row 3) (lcd.num_lines - 1) := by
  unfold lcd_set_cursor_row
  simp only
  split_ifs <;> omega

/-- Claim C6: for `num_lines` in [1,4], a `row` at or beyond `num_lines` is clamped to
`num_lines - 1`, so that `lcd_set_cursor(col, row)` does exactly what
`lcd_set_cursor(col, num_lines - 1)` does; a `row` below `num_lines` is used unchanged; and the
result is always `ESP_OK`. -/
theorem lcd_set_cursor_clamps_to_last_line (w : World) (col row : Nat)
    (hlo : 1 ≤ w.lcd.num_lines) (hhi : w.lcd.num_lines ≤ 4) :
    (w.lcd.num_lines ≤ row →
      lcd_set_cursor_row w.lcd row = w.lcd.num_lines - 1 ∧
      lcd_set_cursor col row w = lcd_set_cursor col (w.lcd.num_lines - 1) w) ∧
    (row < w.lcd.num_lines →
      lcd_set_cursor_row w.lcd row = row ∧
      lcd_set_cursor col row w
        = send_command (LCD_DDRAM ||| (col + w.lcd.row_offset row)) false w) ∧
    (lcd_set_cursor col row w).1 = ESP_OK := by
  refine ⟨fun h => ?_, fun h => ?_, ?_⟩
  · have e1 : lcd_set_cursor_row w.lcd row = w.lcd.num_lines - 1 := by
      rw [lcd_set_cursor_row_eq _ _ hlo]
      omega
    have e2 : lcd_set_cursor_row w.lcd (w.lcd.num_lines - 1) = w.lcd.num_lines - 1 := by
      rw [lcd_set_cursor_row_eq _ _ hlo]
      omega
    exact ⟨e1, by unfold lcd_set_cursor; rw [e1, e2]⟩
  · have e1 : lcd_set_cursor_row w.lcd row = row := by
      rw [lcd_set_cursor_row_eq _ _ hlo]
      omega
    exact ⟨e1, by unfold lcd_set_cursor; rw [e1]⟩
  · unfold lcd_set_cursor
    rw [send_command_eq]

theorem lcd_set_cursor_clamps_to_last_line_witness :
    (lcd_set_cursor_row (fresh app_main_lcd).lcd 2 = (fresh app_main_lcd).lcd.num_lines - 1 ∧
      lcd_set_cursor 4 2 (fresh app_main_lcd)
        = lcd_set_cursor 4 ((fresh app_main_lcd).lcd.num_lines - 1) (fresh app_main_lcd)) ∧
    (lcd_set_cursor_row (fresh app_main_lcd).lcd 0 = 0 ∧
      lcd_set_cursor 4 0 (fresh app_main_lcd)
        = send_command (LCD_DDRAM ||| (4 + (fresh app_main_lcd).lcd.row_offset 0)) false
            (fresh app_main_lcd)) :=
  ⟨(lcd_set_cursor_clamps_to_last_line (fresh app_main_lcd) 4 2 (by decide) (by decide)).1
      (by decide),
   (lcd_set_cursor_clamps_to_last_line (fresh app_main_lcd) 4 0 (by decide) (by decide)).2.1
      (by decide)⟩

/-- Claim C7, as stated, fails: on the two-line example descriptor `lcd_set_cursor(0, 4)` indexes
`row_offsets` at 1, not at 3, and transmits 0xC0 (address 0x40), not 0xD4 (address 0x54). -/
theorem lcd_set_cursor_row_4_two_lines :
    app_main_lcd.wf ∧
    lcd_set_cursor_row app_main_lcd 4 = 1 ∧
    (lcd_set_cursor 0 4 (fresh app_main_lcd)).2.trace
      = (send_command 0xC0 false (fresh app_main_lcd)).2.trace ∧
    (lcd_set_cursor 0 4 (fresh app_main_lcd)).2.trace
      ≠ (send_command (LCD_DDRAM ||| (0 + app_main_lcd.row_offset 3)) false
          (fresh app_main_lcd)).2.trace := by
  set_option maxRecDepth 8000 in decide

/-- Claim C7, amended: with at least one line, `lcd_set_cursor(col, row)` with `row >= 4` clamps
the row to `min 3 (num_lines - 1)`; the transmitted set-DDRAM-address instruction uses
`row_offsets[3]` when `num_lines >= 4` and `row_offsets[num_lines - 1]` when `num_lines` is
1, 2 or 3. -/
theorem lcd_set_cursor_row_ge_4 (w : World) (col row : Nat)
    (hrow : 4 ≤ row) (hlo : 1 ≤ w.lcd.num_lines) :
    lcd_set_cursor_row w.lcd row = min 3 (w.lcd.num_lines - 1) ∧
    lcd_set_cursor col row w
      = send_command (LCD_DDRAM ||| (col + w.lcd.row_offset (min 3 (w.lcd.num_lines - 1))))
          false w ∧
    (4 ≤ w.lcd.num_lines →
      lcd_set_cursor col row w
        = send_command (LCD_DDRAM ||| (col + w.lcd.row_offset 3)) false w) ∧
    (w.lcd.num_lines ≤ 3 →
      lcd_set_cursor col row w
        = send_command (LCD_DDRAM ||| (col + w.lcd.row_offset (w.lcd.num_lines - 1))) false w) := by
  have e : lcd_set_cursor_row w.lcd row = min 3 (w.lcd.num_lines - 1) := by
    rw [lcd_set_cursor_row_eq _ _ hlo]
    omega
  refine ⟨e, ?_, fun h => ?_, fun h => ?_⟩
  · unfold lcd_set_cursor
    rw [e]
  · have e3 : lcd_set_cursor_row w.lcd row = 3 := by omega
    unfold lcd_set_cursor
    rw [e3]
  · have e3 : lcd_set_cursor_row w.lcd row = w.lcd.num_lines - 1 := by omega
    unfold lcd_set_cursor
    rw [e3]

theorem lcd_set_cursor_row_ge_4_witness :
    lcd_set_cursor_row (fresh app_main_lcd).lcd 4 = min 3 ((fresh app_main_lcd).lcd.num_lines - 1) ∧
    lcd_set_cursor 0 4 (fresh app_main_lcd)
      = send_command (LCD_DDRAM ||| (0 + (fresh app_main_lcd).lcd.row_offset
          ((fresh app_main_lcd).lcd.num_lines - 1))) false (fresh app_main_lcd) :=
  ⟨(lcd_set_cursor_row_ge_4 (fresh app_main_lcd) 0 4 (by decide) (by decide)).1,
   (lcd_set_cursor_row_ge_4 (fresh app_main_lcd) 0 4 (by decide) (by decide)).2.2.2 (by decide)⟩

/-- Claim C8: for `num_lines` in [1,4], a `row` below `num_lines` and a `col` with
`row_offsets[row] + col < 0x80`, `lcd_set_cursor(col, row)` is one instruction-register
transmission (register select low) of the byte `0x80 + row_offsets[row] + col`. -/
theorem lcd_set_cursor_transmits_address (w : World) (col row : Nat)
    (hlo : 1 ≤ w.lcd.num_lines) (hhi : w.lcd.num_lines ≤ 4) (hrow : row < w.lcd.num_lines)
    (hsum : w.lcd.row_offset row + col < 0x80) :
    lcd_set_cursor col row w = send_command (0x80 + w.lcd.row_offset row + col) false w ∧
    (lcd_set_cursor col row w).2.trace
      = w.trace ++ transmit_events w.lcd (0x80 + w.lcd.row_offset row + col) false ∧
    (transmit_events w.lcd (0x80 + w.lcd.row_offset row + col) false).head?
      = some (Event.level w.lcd.rs_pin 0) := by
  have e1 : lcd_set_cursor_row w.lcd row = row := by
    rw [lcd_set_cursor_row_eq _ _ hlo]
    omega
  have e2 : LCD_DDRAM ||| (col + w.lcd.row_offset row) = 0x80 + w.lcd.row_offset row + col := by
    show 0x80 ||| (col + w.lcd.row_offset row) = 0x80 + w.lcd.row_offset row + col
    rw [ddram_or _ (by omega)]
    omega
  have e3 : lcd_set_cursor col row w = send_command (0x80 + w.lcd.row_offset row + col) false w := by
    unfold lcd_set_cursor
    rw [e1]
    simp only [e2]
  refine ⟨e3, ?_, ?_⟩
  · rw [e3, send_command_eq, Nat.mod_eq_of_lt (by omega)]
  · unfold transmit_events transmit8_events transmit4_events
    split_ifs <;> rfl

/-- The scenario of claim C8: 4-bit bus, 2 lines, row offsets 0x00, 0x40, 0x14, 0x54;
`lcd_set_cursor(4, 1)` transmits the instruction byte 0xC4, the set-DDRAM-address instruction
with address 0x44. -/
theorem lcd_set_cursor_transmits_address_witness :
    lcd_set_cursor 4 1 (fresh app_main_lcd) = send_command 0xC4 false (fresh app_main_lcd) ∧
    (lcd_set_cursor 4 1 (fresh app_main_lcd)).2.trace
      = (fresh app_main_lcd).trace ++ transmit_events (fresh app_main_lcd).lcd 0xC4 false ∧
    (transmit_events (fresh app_main_lcd).lcd 0xC4 false).head?
      = some (Event.level (fresh app_main_lcd).lcd.rs_pin 0) :=
  lcd_set_cursor_transmits_address (fresh app_main_lcd) 4 1 (by decide) (by decide) (by decide)
    (by decide)

/-! ## Custom glyphs -/

theorem list_length_eight (g : List Nat) (h : g.length = 8) :
    ∃ a b c d e f x y, g = [a, b, c, d, e, f, x, y] := by
  rcases g with _ | ⟨a, _ | ⟨b, _ | ⟨c, _ | ⟨d, _ | ⟨e, _ | ⟨f, _ | ⟨x, _ | ⟨y, _ | ⟨z, t⟩⟩⟩⟩⟩⟩⟩⟩⟩
  case cons.cons.cons.cons.cons.cons.cons.cons.nil => exact ⟨a, b, c, d, e, f, x, y, rfl⟩
  all_goals simp at h

theorem cgram_byte_lt (slot : Nat) (hs : slot ≤ 7) : LCD_CGRAM ||| ((slot % 8) <<< 3) < 256 := by
  interval_cases slot <;> decide

/-- Claim C9: for every slot above 7, `lcd_create_char` returns `ESP_ERR_INVALID_ARG` and changes
nothing: no capability call is made (the trace is as before) and the descriptor is as before. -/
theorem lcd_create_char_bad_slot (w : World) (slot : Nat) (g : List Nat) (h : 7 < slot) :
    (lcd_create_char slot g w).1 = ESP_ERR_INVALID_ARG ∧
    (lcd_create_char slot g w).2.trace = w.trace ∧
    (lcd_create_char slot g w).2.lcd = w.lcd ∧
    (lcd_create_char slot g w).2 = w := by
  unfold lcd_create_char
  rw [if_pos h]
  exact ⟨rfl, rfl, rfl, rfl⟩

theorem lcd_create_char_bad_slot_witness :
    (lcd_create_char 8 hourglass_0 (fresh app_main_lcd)).1 = ESP_ERR_INVALID_ARG ∧
    (lcd_create_char 8 hourglass_0 (fresh app_main_lcd)).2.trace = (fresh app_main_lcd).trace ∧
    (lcd_create_char 8 hourglass_0 (fresh app_main_lcd)).2.lcd = (fresh app_main_lcd).lcd ∧
    (lcd_create_char 8 hourglass_0 (fresh app_main_lcd)).2 = fresh app_main_lcd :=
  lcd_create_char_bad_slot (fresh app_main_lcd) 8 hourglass_0 (by decide)

/-- Claim C10: for every slot in 0..7 and every glyph `g` of 8 bytes, `lcd_create_char(slot, g)`
returns `ESP_OK` and does exactly this: one instruction-register transmission of the byte
`0x40 | (slot << 3)`, then the eight data-register transmissions of `g[0]`, ..., `g[7]` in that
order. -/
theorem lcd_create_char_transmissions (w : World) (slot : Nat) (g : List Nat)
    (hs : slot ≤ 7) (hg : g.length = 8) (hb : ∀ b ∈ g, b < 256) :
    (lcd_create_char slot g w).1 = ESP_OK ∧
    (lcd_create_char slot g w).2
      = g.foldl (fun w b => (send_command b true w).2)
          (send_command (0x40 ||| (slot <<< 3)) false w).2 ∧
    (lcd_create_char slot g w).2.trace
      = w.trace ++
        (transmit_events w.lcd (0x40 ||| (slot <<< 3)) false
          ++ g.flatMap (fun b => transmit_events w.lcd b true)) := by
  obtain ⟨a, b, c, d, e, f, x, y, rfl⟩ := list_length_eight g hg
  have hslot : slot % 8 = slot := Nat.mod_eq_of_lt (by omega)
  have hc := cgram_byte_lt slot hs
  rw [hslot] at hc
  have ha : a % 256 = a := Nat.mod_eq_of_lt (hb a (by simp))
  have hb2 : b % 256 = b := Nat.mod_eq_of_lt (hb b (by simp))
  have hc2 : c % 256 = c := Nat.mod_eq_of_lt (hb c (by simp))
  have hd : d % 256 = d := Nat.mod_eq_of_lt (hb d (by simp))
  have he : e % 256 = e := Nat.mod_eq_of_lt (hb e (by simp))
  have hf : f % 256 = f := Nat.mod_eq_of_lt (hb f (by simp))
  have hx : x % 256 = x := Nat.mod_eq_of_lt (hb x (by simp))
  have hy : y % 256 = y := Nat.mod_eq_of_lt (hb y (by simp))
  have hk : (LCD_CGRAM ||| (slot <<< 3)) % 256 = 0x40 ||| (slot <<< 3) := Nat.mod_eq_of_lt hc
  have hk2 : (0x40 ||| (slot <<< 3)) % 256 = 0x40 ||| (slot <<< 3) := hk
  unfold lcd_create_char
  rw [if_neg (by omega)]
  simp only [hslot, send_command_eq, hk, hk2, ha, hb2, hc2, hd, he, hf, hx, hy,
    List.range_succ, List.range_zero, List.foldl_cons, List.foldl_nil, List.nil_append,
    List.append_assoc, List.cons_append, List.foldl_append, List.getD_cons_zero,
    List.getD_cons_succ, List.flatMap_cons, List.flatMap_nil, List.append_nil, and_self]

theorem lcd_create_char_transmissions_witness :
    (lcd_create_char 1 hourglass_0 (fresh app_main_lcd)).1 = ESP_OK ∧
    (lcd_create_char 1 hourglass_0 (fresh app_main_lcd)).2
      = hourglass_0.foldl (fun w b => (send_command b true w).2)
          (send_command (0x40 ||| (1 <<< 3)) false (fresh app_main_lcd)).2 ∧
    (lcd_create_char 1 hourglass_0 (fresh app_main_lcd)).2.trace
      = (fresh app_main_lcd).trace ++
        (transmit_events (fresh app_main_lcd).lcd (0x40 ||| (1 <<< 3)) false
          ++ hourglass_0.flatMap (fun b => transmit_events (fresh app_main_lcd).lcd b true)) :=
  lcd_create_char_transmissions (fresh app_main_lcd) 1 hourglass_0 (by decide) (by decide)
    (by decide)

/-! ## Text output -/

theorem strlen_append_nul (s rest : List Nat) (hnul : ∀ b ∈ s, b ≠ 0) :
    strlen (s ++ 0 :: rest) = s.length := by
  unfold strlen
  rw [List.takeWhile_append_of_pos (by simpa using hnul)]
  simp

theorem foldl_range_getD (f : Nat → World → World) (l : List Nat) :
    ∀ (n : Nat) (w : World), n ≤ l.length →
      (List.range n).foldl (fun w i => f (l.getD i 0) w) w
        = (l.take n).foldl (fun w b => f b w) w := by
  intro n
  induction n with
  | zero => intro w _; simp
  | succ n ih =>
    intro w hn
    have hlt : n < l.length := hn
    rw [List.range_succ, List.foldl_append, ih w (by omega), List.take_succ,
      List.foldl_append]
    simp [List.getElem?_eq_getElem hlt]

/-- A run of `send_command` calls over a list of values appends their transmissions in order. -/
theorem foldl_send_command (d : Bool) (s : List Nat) :
    ∀ w : World, s.foldl (fun w b => (send_command b d w).2) w
      = { w with trace := w.trace ++ s.flatMap (fun b => transmit_events w.lcd (b % 256) d) } := by
  induction s with
  | nil => intro w; simp
  | cons a t ih =>
    intro w
    rw [List.foldl_cons, send_command_eq, ih]
    simp

theorem flatMap_transmit_mod (lcd : liquid_crystal_t) (d : Bool) (s : List Nat)
    (hb : ∀ b ∈ s, b < 256) :
    s.flatMap (fun b => transmit_events lcd (b % 256) d)
      = s.flatMap (fun b => transmit_events lcd b d) := by
  induction s with
  | nil => rfl
  | cons a t ih =>
    rw [List.flatMap_cons, List.flatMap_cons, Nat.mod_eq_of_lt (hb a (by simp)),
      ih (fun b hbt => hb b (by simp [hbt]))]

/-- The loop of `lcd_print` over a NUL-free string followed by its terminator is the run of
`lcd_write` calls over the bytes of the string. -/
theorem lcd_print_eq (w : World) (s rest : List Nat) (hnul : ∀ b ∈ s, b ≠ 0) :
    lcd_print (s ++ 0 :: rest) w = (ESP_OK, s.foldl (fun w b => (lcd_write b w).2) w) := by
  unfold lcd_print
  simp only [strlen_append_nul s rest hnul]
  rw [foldl_range_getD (fun b w => (lcd_write b w).2) (s ++ 0 :: rest) s.length w (by simp)]
  simp

/-- Claim C11: for every NUL-free byte string `s` (stored with its terminator, whatever follows
it), `lcd_print(s)` does what the calls `lcd_write(s[0])`, `lcd_write(s[1])`, ... do in order;
each `lcd_write(b)` is the single data-register transmission `send_command(b, true)`; the trace
added is the concatenation of those transmissions, and the empty string adds nothing. -/
theorem lcd_print_eq_writes (w : World) (s rest : List Nat)
    (hnul : ∀ b ∈ s, b ≠ 0) (hb : ∀ b ∈ s, b < 256) :
    (lcd_print (s ++ 0 :: rest) w).2 = s.foldl (fun w b => (lcd_write b w).2) w ∧
    (lcd_print (s ++ 0 :: rest) w).2.trace
      = w.trace ++ s.flatMap (fun b => transmit_events w.lcd b true) ∧
    (∀ (b : Nat) (w0 : World), lcd_write b w0 = send_command b true w0) ∧
    (lcd_print (0 :: rest) w).2.trace = w.trace := by
  refine ⟨?_, ?_, fun _ _ => rfl, ?_⟩
  · rw [lcd_print_eq w s rest hnul]
  · rw [lcd_print_eq w s rest hnul]
    show (s.foldl (fun w b => (send_command b true w).2) w).trace = _
    rw [foldl_send_command, flatMap_transmit_mod _ _ _ hb]
  · have h := lcd_print_eq w [] rest (by simp)
    simp only [List.nil_append] at h
    rw [h]
    rfl

/-- The scenario of claim C11: `lcd_print("AB")` is `lcd_write('A')` followed by
`lcd_write('B')`. -/
theorem lcd_print_eq_writes_witness :
    (lcd_print str_AB (fresh app_main_lcd)).2
      = (lcd_write 0x42 (lcd_write 0x41 (fresh app_main_lcd)).2).2 ∧
    (lcd_print str_AB (fresh app_main_lcd)).2.trace
      = (fresh app_main_lcd).trace
          ++ [0x41, 0x42].flatMap (fun b => transmit_events (fresh app_main_lcd).lcd b true) :=
  ⟨(lcd_print_eq_writes (fresh app_main_lcd) [0x41, 0x42] [] (by decide) (by decide)).1,
   (lcd_print_eq_writes (fresh app_main_lcd) [0x41, 0x42] [] (by decide) (by decide)).2.1⟩

/-! ## Display control -/

/-- Claim C12: for all flags, `lcd_display_mode(on, cursor, blink)` is one instruction-register
transmission of a byte `B` with `B & 0xF8 = 0x08`, bit 2 equal to `on`, bit 1 to `cursor` and
bit 0 to `blink`; decoding `B` gives the three flags back, so the map from flags to byte is
injective; all flags set give 0x0F and all flags clear give 0x08. -/
theorem lcd_display_mode_roundtrip (enabled cursor blink : Bool) (w : World) :
    lcd_display_mode enabled cursor blink w
      = send_command (display_mode_byte enabled cursor blink) false w ∧
    (lcd_display_mode enabled cursor blink w).2.trace
      = w.trace ++ transmit_events w.lcd (display_mode_byte enabled cursor blink) false ∧
    display_mode_byte enabled cursor blink &&& 0xF8 = 0x08 ∧
    (display_mode_byte enabled cursor blink).testBit 2 = enabled ∧
    (display_mode_byte enabled cursor blink).testBit 1 = cursor ∧
    (display_mode_byte enabled cursor blink).testBit 0 = blink ∧
    decode_display_mode (display_mode_byte enabled cursor blink) = (enabled, cursor, blink) ∧
    Function.Injective
      (fun f : Bool × Bool × Bool => display_mode_byte f.1 f.2.1 f.2.2) ∧
    display_mode_byte true true true = 0x0F ∧
    display_mode_byte false false false = 0x08 := by
  have hlt : display_mode_byte enabled cursor blink < 256 := by
    cases enabled <;> cases cursor <;> cases blink <;> decide
  have hdec : ∀ a b c : Bool, decode_display_mode (display_mode_byte a b c) = (a, b, c) := by
    intro a b c
    cases a <;> cases b <;> cases c <;> decide
  refine ⟨rfl, ?_, ?_, ?_, ?_, ?_, hdec enabled cursor blink, ?_, by decide, by decide⟩
  · show (send_command (display_mode_byte enabled cursor blink) false w).2.trace = _
    rw [send_command_eq, Nat.mod_eq_of_lt hlt]
  · cases enabled <;> cases cursor <;> cases blink <;> decide
  · cases enabled <;> cases cursor <;> cases blink <;> decide
  · cases enabled <;> cases cursor <;> cases blink <;> decide
  · cases enabled <;> cases cursor <;> cases blink <;> decide
  · intro f g hfg
    have hf := hdec f.1 f.2.1 f.2.2
    have hg := hdec g.1 g.2.1 g.2.2
    simp only at hfg
    rw [hfg, hg] at hf
    exact hf.symm

/-! ## Error propagation -/

/-- Claim C13, as stated, fails: with a GPIO driver that fails every call with `ESP_FAIL`, the
pin-level writes made during `send_command` fail and `send_command` still returns `ESP_OK`. -/
theorem send_command_drops_gpio_failure :
    (gpio_set_level (failing app_main_lcd).lcd.rs_pin 1 (failing app_main_lcd)).1 = ESP_FAIL ∧
    ESP_FAIL ≠ ESP_OK ∧
    (send_command 0x41 true (failing app_main_lcd)).1 = ESP_OK ∧
    (send_command 0x41 true (failing app_main_lcd)).1 ≠ ESP_FAIL := by
  refine ⟨rfl, by decide, ?_, ?_⟩
  · rw [send_command_eq]
  · rw [send_command_eq]
    decide

/-- Claim C13, amended: `send_command` returns `ESP_OK` for every value, flag and world, that is,
whatever the pin-level-set calls return; the codes of the GPIO driver are dropped, and the calls
made are the same as when every call succeeds. -/
theorem send_command_always_ok (v : Nat) (d : Bool) (w : World) :
    (send_command v d w).1 = ESP_OK ∧
    (send_command v d w).2.gpio_err = w.gpio_err ∧
    ∀ g : Nat → esp_err_t,
      (send_command v d { w with gpio_err := g }).1 = ESP_OK ∧
      (send_command v d { w with gpio_err := g }).2.trace = (send_command v d w).2.trace := by
  refine ⟨?_, ?_, fun g => ⟨?_, ?_⟩⟩
  · rw [send_command_eq]
  · rw [send_command_eq]
  · rw [send_command_eq]
  · rw [send_command_eq, send_command_eq]

/-! ## Function set -/

/-- The function-set byte, bit by bit. -/
theorem lcd_init_config_eq (lcd : liquid_crystal_t) :
    lcd_init_config lcd
      = 0x20 ||| (if lcd.is_8bit then 0x10 else 0) ||| (if lcd.is_2rows then 0x08 else 0)
          ||| (if lcd.is_large_font then 0x04 else 0) := by
  rfl

/-- A descriptor that passes validation is initialised with, at the end, the transmissions of the
function-set byte, of 0x0C and of 0x06. -/
theorem lcd_init_tail (w : World)
    (hrs : w.lcd.rs_pin ≠ 0) (hen : w.lcd.enable_pin ≠ 0)
    (hlo : 1 ≤ w.lcd.num_lines) (hhi : w.lcd.num_lines ≤ 4) :
    ∃ pre : List Event,
      lcd_init w
        = (ESP_OK, { w with trace := w.trace ++
            (pre ++ transmit_events w.lcd (lcd_init_config w.lcd) false
              ++ transmit_events w.lcd 0x0C false ++ transmit_events w.lcd 0x06 false) }) := by
  cases h : w.lcd.is_8bit
  · rw [lcd_init_4bit_eq w hrs hen hlo hhi h]
    refine ⟨setup4_events w.lcd ++ [Event.delay 50]
            ++ raw_nibble_events w.lcd 0b0011 ++ [Event.delay 5]
            ++ raw_nibble_events w.lcd 0b0011 ++ [Event.delay 5]
            ++ raw_nibble_events w.lcd 0b0011 ++ [Event.delay 1]
            ++ raw_nibble_events w.lcd 0b0010, ?_⟩
    simp [transmit_events, h]
  · rw [lcd_init_8bit_eq w hrs hen hlo hhi h]
    refine ⟨setup8_events w.lcd ++ [Event.delay 50]
            ++ transmit8_events w.lcd (lcd_init_config w.lcd) false ++ [Event.delay 5]
            ++ transmit8_events w.lcd (lcd_init_config w.lcd) false ++ [Event.delay 1]
            ++ transmit8_events w.lcd (lcd_init_config w.lcd) false, ?_⟩
    simp [transmit_events, h]

/-- Claim C14, as stated, fails: the example descriptor with the two-row flag cleared has
`num_lines = 2` and passes validation, yet `lcd_init` transmits the function-set byte 0x20, not
0x28; and it differs from the example descriptor, which has the same bus width, line count and
font size, in the byte transmitted. -/
theorem function_set_ignores_line_count :
    two_lines_one_row_lcd.wf ∧
    two_lines_one_row_lcd.num_lines = 2 ∧
    (lcd_init (fresh two_lines_one_row_lcd)).1 = ESP_OK ∧
    function_set_by_line_count two_lines_one_row_lcd = 0x28 ∧
    lcd_init_config two_lines_one_row_lcd = 0x20 ∧
    (lcd_init (fresh two_lines_one_row_lcd)).2.trace
      = setup4_events two_lines_one_row_lcd ++ [Event.delay 50]
          ++ raw_nibble_events two_lines_one_row_lcd 0b0011 ++ [Event.delay 5]
          ++ raw_nibble_events two_lines_one_row_lcd 0b0011 ++ [Event.delay 5]
          ++ raw_nibble_events two_lines_one_row_lcd 0b0011 ++ [Event.delay 1]
          ++ raw_nibble_events two_lines_one_row_lcd 0b0010
          ++ transmit4_events two_lines_one_row_lcd 0x20 false
          ++ transmit4_events two_lines_one_row_lcd 0x0C false
          ++ transmit4_events two_lines_one_row_lcd 0x06 false ∧
    transmit4_events two_lines_one_row_lcd 0x20 false
      ≠ transmit4_events two_lines_one_row_lcd 0x28 false ∧
    two_lines_one_row_lcd.is_8bit = app_main_lcd.is_8bit ∧
    two_lines_one_row_lcd.num_lines = app_main_lcd.num_lines ∧
    two_lines_one_row_lcd.is_large_font = app_main_lcd.is_large_font ∧
    lcd_init_config two_lines_one_row_lcd ≠ lcd_init_config app_main_lcd := by
  set_option maxRecDepth 8000 in decide

/-- Claim C14, amended: for every descriptor that passes validation, the function-set byte that
`lcd_init` transmits (last before the two default settings) is
`0x20 | (0x10 if is_8bit) | (0x08 if is_2rows) | (0x04 if is_large_font)`; it is determined by
the bus width, the two-row flag and the font size alone, whatever the line count. -/
theorem lcd_init_function_set_byte (w : World)
    (hrs : w.lcd.rs_pin ≠ 0) (hen : w.lcd.enable_pin ≠ 0)
    (hlo : 1 ≤ w.lcd.num_lines) (hhi : w.lcd.num_lines ≤ 4) :
    (∃ pre : List Event,
      (lcd_init w).2.trace
        = w.trace ++
          (pre
            ++ transmit_events w.lcd
                (0x20 ||| (if w.lcd.is_8bit then 0x10 else 0)
                  ||| (if w.lcd.is_2rows then 0x08 else 0)
                  ||| (if w.lcd.is_large_font then 0x04 else 0)) false
            ++ transmit_events w.lcd 0x0C false ++ transmit_events w.lcd 0x06 false)) ∧
    (∀ lcd2 : liquid_crystal_t,
      lcd2.is_8bit = w.lcd.is_8bit → lcd2.is_2rows = w.lcd.is_2rows →
      lcd2.is_large_font = w.lcd.is_large_font →
      lcd_init_config lcd2 = lcd_init_config w.lcd) := by
  constructor
  · obtain ⟨pre, h⟩ := lcd_init_tail w hrs hen hlo hhi
    refine ⟨pre, ?_⟩
    rw [h, lcd_init_config_eq]
  · intro lcd2 h1 h2 h3
    rw [lcd_init_config_eq, lcd_init_config_eq, h1, h2, h3]

theorem lcd_init_function_set_byte_witness :
    (∃ pre : List Event,
      (lcd_init (fresh two_lines_one_row_lcd)).2.trace
        = (fresh two_lines_one_row_lcd).trace ++
          (pre
            ++ transmit_events (fresh two_lines_one_row_lcd).lcd
                (0x20 ||| (if (fresh two_lines_one_row_lcd).lcd.is_8bit then 0x10 else 0)
                  ||| (if (fresh two_lines_one_row_lcd).lcd.is_2rows then 0x08 else 0)
                  ||| (if (fresh two_lines_one_row_lcd).lcd.is_large_font then 0x04 else 0))
                false
            ++ transmit_events (fresh two_lines_one_row_lcd).lcd 0x0C false
            ++ transmit_events (fresh two_lines_one_row_lcd).lcd 0x06 false)) ∧
    lcd_init_config rs_nc_lcd = lcd_init_config (fresh app_main_lcd).lcd :=
  ⟨(lcd_init_function_set_byte (fresh two_lines_one_row_lcd) (by decide) (by decide) (by decide)
      (by decide)).1,
   (lcd_init_function_set_byte (fresh app_main_lcd) (by decide) (by decide) (by decide)
      (by decide)).2 rs_nc_lcd rfl rfl rfl⟩

/-! ## Clear and home -/

/-- Claim C15: `lcd_clear` is one instruction-register transmission of 0x01 and `lcd_home` one of
0x02, each followed by a delay of 50 ms, and each returns `ESP_OK`. -/
theorem lcd_clear_home (w : World) :
    lcd_clear w
      = (ESP_OK, { w with trace := w.trace ++
          (transmit_events w.lcd 0x01 false ++ [Event.delay 50]) }) ∧
    lcd_home w
      = (ESP_OK, { w with trace := w.trace ++
          (transmit_events w.lcd 0x02 false ++ [Event.delay 50]) }) := by
  constructor
  · unfold lcd_clear
    simp only [send_command_eq, vTaskDelay_ms, List.append_assoc]
    rfl
  · unfold lcd_home
    simp only [send_command_eq, vTaskDelay_ms, List.append_assoc]
    rfl

/-! ## Initialisation on an 8-bit bus and default settings -/

/-- Claim C16: on an 8-bit bus, for a descriptor that passes validation, `lcd_init` after the pin
set-up and the 50 ms wait transmits the function-set byte three times, with an extra 5 ms after
the first, an extra 1 ms after the second and nothing extra after the third, and then a fourth
time, before the display-control and entry-mode transmissions. -/
theorem lcd_init_8bit_function_set (w : World)
    (hrs : w.lcd.rs_pin ≠ 0) (hen : w.lcd.enable_pin ≠ 0)
    (hlo : 1 ≤ w.lcd.num_lines) (hhi : w.lcd.num_lines ≤ 4) (h8 : w.lcd.is_8bit = true) :
    (lcd_init w).2.trace
      = w.trace ++
        (setup8_events w.lcd ++ [Event.delay 50]
          ++ transmit8_events w.lcd (lcd_init_config w.lcd) false ++ [Event.delay 5]
          ++ transmit8_events w.lcd (lcd_init_config w.lcd) false ++ [Event.delay 1]
          ++ transmit8_events w.lcd (lcd_init_config w.lcd) false
          ++ transmit8_events w.lcd (lcd_init_config w.lcd) false
          ++ transmit8_events w.lcd 0x0C false
          ++ transmit8_events w.lcd 0x06 false) := by
  rw [lcd_init_8bit_eq w hrs hen hlo hhi h8]

theorem lcd_init_8bit_function_set_witness :
    (lcd_init (fresh eight_bit_lcd)).2.trace
      = (fresh eight_bit_lcd).trace ++
        (setup8_events (fresh eight_bit_lcd).lcd ++ [Event.delay 50]
          ++ transmit8_events (fresh eight_bit_lcd).lcd
              (lcd_init_config (fresh eight_bit_lcd).lcd) false ++ [Event.delay 5]
          ++ transmit8_events (fresh eight_bit_lcd).lcd
              (lcd_init_config (fresh eight_bit_lcd).lcd) false ++ [Event.delay 1]
          ++ transmit8_events (fresh eight_bit_lcd).lcd
              (lcd_init_config (fresh eight_bit_lcd).lcd) false
          ++ transmit8_events (fresh eight_bit_lcd).lcd
              (lcd_init_config (fresh eight_bit_lcd).lcd) false
          ++ transmit8_events (fresh eight_bit_lcd).lcd 0x0C false
          ++ transmit8_events (fresh eight_bit_lcd).lcd 0x06 false) :=
  lcd_init_8bit_function_set (fresh eight_bit_lcd) (by decide) (by decide) (by decide)
    (by decide) rfl

/-- Claim C17: for every descriptor that passes validation, `lcd_init` ends with the
instruction-register transmissions of 0x0C and then 0x06, and those two are exactly what
`lcd_display_mode(true, false, false)` followed by `lcd_left_to_right(false)` do from the state
reached before them. -/
theorem lcd_init_default_settings (w : World)
    (hrs : w.lcd.rs_pin ≠ 0) (hen : w.lcd.enable_pin ≠ 0)
    (hlo : 1 ≤ w.lcd.num_lines) (hhi : w.lcd.num_lines ≤ 4) :
    ∃ pre : List Event,
      (lcd_init w).2.trace
        = w.trace ++ pre ++ transmit_events w.lcd 0x0C false
            ++ transmit_events w.lcd 0x06 false ∧
      (lcd_init w).2
        = (lcd_left_to_right false
            (lcd_display_mode true false false { w with trace := w.trace ++ pre }).2).2 ∧
      (lcd_display_mode true false false { w with trace := w.trace ++ pre }).2.trace
        = w.trace ++ pre ++ transmit_events w.lcd 0x0C false ∧
      (lcd_left_to_right false
          (lcd_display_mode true false false { w with trace := w.trace ++ pre }).2).2.trace
        = (lcd_display_mode true false false { w with trace := w.trace ++ pre }).2.trace
            ++ transmit_events w.lcd 0x06 false := by
  obtain ⟨pre, h⟩ := lcd_init_tail w hrs hen hlo hhi
  have hd : (LCD_DISPLAY ||| LCD_DISPLAY_ON ||| LCD_CURSOR_OFF ||| LCD_BLINK_OFF) % 256 = 0x0C := by
    decide
  have he : (LCD_CURSOR ||| LCD_SHIFT_L ||| LCD_DEC_MODE) % 256 = 0x06 := by decide
  refine ⟨pre ++ transmit_events w.lcd (lcd_init_config w.lcd) false, ?_, ?_, ?_, ?_⟩
  · rw [h]
    simp only [List.append_assoc]
  · rw [h]
    simp only [lcd_left_to_right, lcd_display_mode, send_command_eq, hd, he, List.append_assoc,
      Bool.false_eq_true, if_false, if_true]
  · simp only [lcd_display_mode, send_command_eq, hd, List.append_assoc,
      Bool.false_eq_true, if_false, if_true]
  · simp only [lcd_left_to_right, lcd_display_mode, send_command_eq, hd, he, List.append_assoc,
      Bool.false_eq_true, if_false, if_true]

theorem lcd_init_default_settings_witness :
    ∃ pre : List Event,
      (lcd_init (fresh app_main_lcd)).2.trace
        = (fresh app_main_lcd).trace ++ pre
            ++ transmit_events (fresh app_main_lcd).lcd 0x0C false
            ++ transmit_events (fresh app_main_lcd).lcd 0x06 false ∧
      (lcd_init (fresh app_main_lcd)).2
        = (lcd_left_to_right false
            (lcd_display_mode true false false
              { fresh app_main_lcd with trace := (fresh app_main_lcd).trace ++ pre }).2).2 ∧
      (lcd_display_mode true false false
          { fresh app_main_lcd with trace := (fresh app_main_lcd).trace ++ pre }).2.trace
        = (fresh app_main_lcd).trace ++ pre
            ++ transmit_events (fresh app_main_lcd).lcd 0x0C false ∧
      (lcd_left_to_right false
          (lcd_display_mode true false false
            { fresh app_main_lcd with trace := (fresh app_main_lcd).trace ++ pre }).2).2.trace
        = (lcd_display_mode true false false
            { fresh app_main_lcd with trace := (fresh app_main_lcd).trace ++ pre }).2.trace
            ++ transmit_events (fresh app_main_lcd).lcd 0x06 false :=
  lcd_init_default_settings (fresh app_main_lcd) (by decide) (by decide) (by decide) (by decide)

/-! ## The enable pulse -/

/-- Claim C18: for every pin `p`, `pulse(p)` adds to the trace exactly: `p` low, 1 ms, `p` high,
1 ms, `p` low, 1 ms; no other pin is written, the level last written to `p` is low, and the
descriptor is untouched. -/
theorem pulse_trace (p : Nat) (w : World) :
    (pulse p w).trace
      = w.trace ++
        [Event.level p 0, Event.delay 1, Event.level p 1, Event.delay 1, Event.level p 0,
         Event.delay 1] ∧
    writes_only p
      [Event.level p 0, Event.delay 1, Event.level p 1, Event.delay 1, Event.level p 0,
       Event.delay 1] = true ∧
    last_level p (pulse p w).trace = some 0 ∧
    (pulse p w).lcd = w.lcd := by
  refine ⟨?_, ?_, ?_, ?_⟩
  · rw [pulse_eq]
    rfl
  · simp [writes_only]
  · rw [pulse_eq]
    simp [last_level, pulse_events, List.foldl_append]
  · rw [pulse_eq]

/-! ## Cursor addressing: bounds and overflow -/

theorem send_command_mod (v : Nat) (d : Bool) (w : World) :
    send_command (v % 256) d w = send_command v d w := by
  rw [send_command_eq, send_command_eq, Nat.mod_mod]

/-- Claim C19: for `num_lines` in [1,4] and every `col` and `row`, the index at which
`lcd_set_cursor` reads `row_offsets` is at most `min 3 (num_lines - 1)`: it is below 4, the size
of the array, and below the configured line count. -/
theorem lcd_set_cursor_index_in_bounds (w : World) (col row : Nat)
    (hlo : 1 ≤ w.lcd.num_lines) (hhi : w.lcd.num_lines ≤ 4) :
    lcd_set_cursor col row w
      = send_command (LCD_DDRAM ||| (col + w.lcd.row_offset (lcd_set_cursor_row w.lcd row)))
          false w ∧
    lcd_set_cursor_row w.lcd row ≤ min 3 (w.lcd.num_lines - 1) ∧
    lcd_set_cursor_row w.lcd row < 4 ∧
    lcd_set_cursor_row w.lcd row < w.lcd.num_lines := by
  have e := lcd_set_cursor_row_eq w.lcd row hlo
  refine ⟨rfl, ?_, ?_, ?_⟩ <;> omega

theorem lcd_set_cursor_index_in_bounds_witness :
    lcd_set_cursor 255 255 (fresh app_main_lcd)
      = send_command
          (LCD_DDRAM ||| (255 + (fresh app_main_lcd).lcd.row_offset
            (lcd_set_cursor_row (fresh app_main_lcd).lcd 255))) false (fresh app_main_lcd) ∧
    lcd_set_cursor_row (fresh app_main_lcd).lcd 255
      ≤ min 3 ((fresh app_main_lcd).lcd.num_lines - 1) ∧
    lcd_set_cursor_row (fresh app_main_lcd).lcd 255 < 4 ∧
    lcd_set_cursor_row (fresh app_main_lcd).lcd 255 < (fresh app_main_lcd).lcd.num_lines :=
  lcd_set_cursor_index_in_bounds (fresh app_main_lcd) 255 255 (by decide) (by decide)

/-- Claim C20: with at least one line (so for `num_lines` in [1,4]) and every `col` and `row`,
with no bound on
`col + row_offsets[r]`, the byte `lcd_set_cursor` transmits is
`(0x80 | (col + row_offsets[r])) mod 256` for the clamped row `r`, as one instruction-register
transmission, and bit 7 of that byte is set: it is at least 0x80 and below 0x100. -/
theorem lcd_set_cursor_byte_bit7 (w : World) (col row : Nat)
    (hlo : 1 ≤ w.lcd.num_lines) :
    lcd_set_cursor_row w.lcd row = min (min row 3) (w.lcd.num_lines - 1) ∧
    lcd_set_cursor col row w
      = send_command
          ((0x80 ||| (col + w.lcd.row_offset (lcd_set_cursor_row w.lcd row))) % 256) false w ∧
    (lcd_set_cursor col row w).2.trace
      = w.trace ++ transmit_events w.lcd
          ((0x80 ||| (col + w.lcd.row_offset (lcd_set_cursor_row w.lcd row))) % 256) false ∧
    ((0x80 ||| (col + w.lcd.row_offset (lcd_set_cursor_row w.lcd row))) % 256).testBit 7 = true ∧
    0x80 ≤ (0x80 ||| (col + w.lcd.row_offset (lcd_set_cursor_row w.lcd row))) % 256 ∧
    (0x80 ||| (col + w.lcd.row_offset (lcd_set_cursor_row w.lcd row))) % 256 < 0x100 := by
  have hbit : ((0x80 ||| (col + w.lcd.row_offset (lcd_set_cursor_row w.lcd row))) % 256).testBit 7
      = true := by
    rw [show (256 : Nat) = 2 ^ 8 from rfl, Nat.testBit_mod_two_pow, Nat.testBit_or]
    have h7 : Nat.testBit 0x80 7 = true := by decide
    simp [h7]
  refine ⟨lcd_set_cursor_row_eq w.lcd row hlo, ?_, ?_, hbit, ?_, Nat.mod_lt _ (by decide)⟩
  · rw [send_command_mod]
    rfl
  · show (send_command (LCD_DDRAM ||| (col + w.lcd.row_offset (lcd_set_cursor_row w.lcd row)))
        false w).2.trace = _
    rw [send_command_eq]
    rfl
  · exact Nat.testBit_implies_ge hbit

/-- A case of claim C20 where the column sum overflows a byte: on the example descriptor
`lcd_set_cursor(200, 1)` has the sum 0x108 and transmits 0x88. -/
theorem lcd_set_cursor_byte_bit7_witness :
    lcd_set_cursor_row (fresh app_main_lcd).lcd 1
      = min (min 1 3) ((fresh app_main_lcd).lcd.num_lines - 1) ∧
    lcd_set_cursor 200 1 (fresh app_main_lcd) = send_command 0x88 false (fresh app_main_lcd) ∧
    (lcd_set_cursor 200 1 (fresh app_main_lcd)).2.trace
      = (fresh app_main_lcd).trace ++ transmit_events (fresh app_main_lcd).lcd 0x88 false ∧
    Nat.testBit 0x88 7 = true ∧
    0x80 ≤ 0x88 ∧
    0x88 < 0x100 :=
  lcd_set_cursor_byte_bit7 (fresh app_main_lcd) 200 1 (by decide)

end LiquidCrystal
